import Mathlib

/-!
Shallow embedding of parts of the immudb storage engine, translated from
the Go sources: the Azure remote-storage backend (`embedded/remotestorage/azure/blob.go`),
the store configuration options and their validation (`store` package options file),
the `immuadmin` database-settings preparation (`cmd/immuadmin/command/database.go`),
and a spec-level model of the commit-time hash chain.

Go strings are modelled as `List Char` (`GoStr`); Go `int`/`int64`/`time.Duration`
are modelled as `Int` (comparisons in the embedded code never overflow);
`float32` is modelled as `Rat`. Functions that would perform I/O are embedded
up to their I/O point: a successful result carries a request descriptor, so an
`Except.error` result means the operation failed before issuing any I/O.
-/

/-- Go strings are byte/char sequences; list form makes the trimming and
prefix/suffix operations of the source directly expressible. -/
abbrev GoStr := List Char

/-- Errors of the azure remote-storage backend (`blob.go`):
`ErrInvalidArguments`, `ErrInvalidResponse`, `ErrTooManyRedirects`. -/
inductive Err where
  | invalidArguments
  | invalidResponse
  | tooManyRedirects
deriving DecidableEq, Repr

/-- `strings.HasPrefix(s, "/")`. -/
def hasPrefixSlash : GoStr → Bool
  | [] => false
  | c :: _ => c == '/'

/-- `strings.HasSuffix(s, "/")`. -/
def hasSuffixSlash (s : GoStr) : Bool :=
  match s.getLast? with
  | some c => c == '/'
  | none => false

/-- `strings.Contains(s, "/")`. -/
def containsSlash (s : GoStr) : Bool :=
  s.any (· == '/')

/-- `strings.Contains(s, "//")`. -/
def containsSlashSlash : GoStr → Bool
  | [] => false
  | [_] => false
  | a :: b :: rest => (a == '/' && b == '/') || containsSlashSlash (b :: rest)

/-- `strings.TrimLeft(s, "/")`. -/
def trimLeftSlash (s : GoStr) : GoStr :=
  s.dropWhile (· == '/')

/-- `strings.TrimRight(s, "/")`. -/
def trimRightSlash (s : GoStr) : GoStr :=
  (s.reverse.dropWhile (· == '/')).reverse

/-- `strings.Trim(s, "/")`. -/
def trimSlash (s : GoStr) : GoStr :=
  trimRightSlash (trimLeftSlash s)

/-- Go string `<` (byte-wise lexicographic comparison). -/
def goStrLt : GoStr → GoStr → Bool
  | _, [] => false
  | [], _ :: _ => true
  | a :: as, b :: bs => a < b || (a == b && goStrLt as bs)

/-- The azure `Storage` struct (`blob.go`): the string configuration fields.
The credential and container client are I/O handles and are not part of the
pure state. The Go field `prefix` is renamed `prefixStr` (keyword clash). -/
structure Storage where
  endpoint : GoStr
  container : GoStr
  prefixStr : GoStr
deriving DecidableEq, Repr

/-- `azure.Open`: normalizes the endpoint to end with `/`, trims the
container and rejects it if a `/` remains, and trims the prefix, appending
`/` when it is non-empty. The container-client construction is an I/O step
after these checks and is not modelled. -/
def Open (endpoint container prefixStr : GoStr) : Except Err Storage :=
  let endpoint := trimRightSlash endpoint ++ ['/']
  let container := trimSlash container
  if containsSlash container then
    .error .invalidArguments
  else
    let prefixStr := trimSlash prefixStr
    let prefixStr := if prefixStr.isEmpty then prefixStr else prefixStr ++ ['/']
    .ok { endpoint := endpoint, container := container, prefixStr := prefixStr }

/-- The download that `Storage.Get` would issue after its argument checks. -/
structure DownloadRequest where
  name : GoStr
  offs : Int
  size : Int
deriving DecidableEq, Repr

/-- `Storage.Get`: argument checks of the source, in source order; a `.ok`
result is the download request the code goes on to issue (in the source,
`make([]byte, size)` followed by `DownloadBlobToBuffer`). -/
def Storage.Get (_s : Storage) (name : GoStr) (offs size : Int) :
    Except Err DownloadRequest :=
  if offs < 0 || size == 0 then
    .error .invalidArguments
  else if hasPrefixSlash name || hasSuffixSlash name then
    .error .invalidArguments
  else
    .ok { name := name, offs := offs, size := size }

/-- The upload that `Storage.Put` would issue after its argument checks. -/
structure PutRequest where
  name : GoStr
  fileName : GoStr
deriving DecidableEq, Repr

/-- `Storage.Put`: the name check of the source; a `.ok` result is the local
file open plus upload the code goes on to perform. -/
def Storage.Put (_s : Storage) (name fileName : GoStr) : Except Err PutRequest :=
  if hasPrefixSlash name || hasSuffixSlash name then
    .error .invalidArguments
  else
    .ok { name := name, fileName := fileName }

/-- The properties request that `Storage.Exists` would issue after its
argument check. -/
structure ExistsRequest where
  name : GoStr
deriving DecidableEq, Repr

/-- `Storage.Exists`: the name check of the source; a `.ok` result is the
`GetProperties` call the code goes on to issue. -/
def Storage.Exists (_s : Storage) (name : GoStr) : Except Err ExistsRequest :=
  if hasPrefixSlash name || hasSuffixSlash name then
    .error .invalidArguments
  else
    .ok { name := name }

/-- `remotestorage.EntryInfo`: name and size of one listed blob. -/
structure EntryInfo where
  Name : GoStr
  Size : Int
deriving DecidableEq, Repr

/-- `sort.SliceIsSorted` over adjacent pairs: for every consecutive pair
`(a, b)`, `less b a` must be false. -/
def sliceIsSortedBy (less : α → α → Bool) : List α → Bool
  | [] => true
  | [_] => true
  | a :: b :: rest => !(less b a) && sliceIsSortedBy less (b :: rest)

/-- `Storage.ListEntries`: the path check of the source, then the backend
page results (modelled as the concatenated lists the pager yields), then the
sortedness protocol check. A `.error` on the path check is returned before
the backend is contacted. -/
def Storage.ListEntries (s : Storage) (path : GoStr)
    (backendEntries : List EntryInfo) (backendSubPaths : List GoStr) :
    Except Err (List EntryInfo × List GoStr) :=
  if !path.isEmpty && (!(hasSuffixSlash path) || containsSlashSlash path) then
    .error .invalidArguments
  else
    let _str := s.prefixStr ++ path
    if !(sliceIsSortedBy (fun a b => goStrLt a.Name b.Name) backendEntries) ||
        !(sliceIsSortedBy goStrLt backendSubPaths) then
      .error .invalidResponse
    else
      .ok (backendEntries, backendSubPaths)

/-! ## Store configuration options (`store` package options file) -/

/-- `IndexOptions` of the store package. `time.Duration` fields are `Int`
nanoseconds; `float32 CleanupPercentage` is modelled as `Rat`. -/
structure IndexOptions where
  CacheSize : Int
  FlushThld : Int
  SyncThld : Int
  FlushBufferSize : Int
  CleanupPercentage : Rat
  MaxActiveSnapshots : Int
  MaxNodeSize : Int
  RenewSnapRootAfter : Int
  CompactionThld : Int
  DelayDuringCompaction : Int
  NodesLogMaxOpenedFiles : Int
  HistoryLogMaxOpenedFiles : Int
  CommitLogMaxOpenedFiles : Int
deriving DecidableEq, Repr

/-- `Options` of the store package. Function- and interface-typed fields
(`log`, `appFactory`, `TimeFunc`) are modelled as `Option Unit`: only their
nil-ness is ever inspected. The Go pointer `IndexOpts *IndexOptions` is an
`Option IndexOptions`. -/
structure Options where
  ReadOnly : Bool
  Synced : Bool
  FileMode : Nat
  log : Option Unit
  appFactory : Option Unit
  CompactionDisabled : Bool
  MaxConcurrency : Int
  MaxIOConcurrency : Int
  MaxLinearProofLen : Int
  TxLogCacheSize : Int
  VLogMaxOpenedFiles : Int
  TxLogMaxOpenedFiles : Int
  CommitLogMaxOpenedFiles : Int
  WriteTxHeaderVersion : Int
  MaxWaitees : Int
  TimeFunc : Option Unit
  MaxTxEntries : Int
  MaxKeyLen : Int
  MaxValueLen : Int
  FileSize : Int
  CompressionFormat : Int
  CompressionLevel : Int
  IndexOpts : Option IndexOptions
deriving DecidableEq, Repr

/-- `MaxFileSize = (1 << 31) - 1`, the segment-file size platform ceiling. -/
def MaxFileSize : Int := (1 <<< 31) - 1

/-- Modelled from the spec: the hard platform ceiling on concurrent I/O
("max concurrent I/O (≤ a hard platform ceiling)"); the constant
`MaxParallelIO` is declared elsewhere in the store package, outside the
provided sources. Its concrete value does not affect the claims. -/
def MaxParallelIO : Int := 127

/-- Modelled from the spec: the hard ceiling on key length ("max key length
(hard ceiling enforced)"); the constant `MaxKeyLen` is declared elsewhere in
the store package, outside the provided sources. -/
def MaxKeyLen : Int := 1024

/-- Modelled from the spec: the maximum transaction-header version, declared
elsewhere in the store package, outside the provided sources. -/
def MaxTxHeaderVersion : Int := 1

/-- `validIndexOptions`: nil check plus the bounds actually present in the
source. `SyncThld`, `CompactionThld` and `DelayDuringCompaction` are not
inspected. -/
def validIndexOptions : Option IndexOptions → Bool
  | none => false
  | some o =>
    decide (0 < o.CacheSize) &&
    decide (0 < o.FlushThld) &&
    decide (0 < o.FlushBufferSize) &&
    (decide (0 ≤ o.CleanupPercentage) && decide (o.CleanupPercentage ≤ 100)) &&
    decide (0 < o.MaxActiveSnapshots) &&
    decide (0 < o.MaxNodeSize) &&
    decide (0 ≤ o.RenewSnapRootAfter) &&
    decide (0 < o.NodesLogMaxOpenedFiles) &&
    decide (0 < o.HistoryLogMaxOpenedFiles) &&
    decide (0 < o.CommitLogMaxOpenedFiles)

/-- `validOptions`: nil check plus the conjunction of bounds of the source. -/
def validOptions : Option Options → Bool
  | none => false
  | some o =>
    decide (0 < o.MaxConcurrency) &&
    decide (0 < o.MaxIOConcurrency) &&
    decide (o.MaxIOConcurrency ≤ MaxParallelIO) &&
    decide (0 ≤ o.MaxLinearProofLen) &&
    decide (0 < o.VLogMaxOpenedFiles) &&
    decide (0 < o.TxLogMaxOpenedFiles) &&
    decide (0 < o.CommitLogMaxOpenedFiles) &&
    decide (0 ≤ o.TxLogCacheSize) &&
    decide (0 ≤ o.MaxWaitees) &&
    o.TimeFunc.isSome &&
    decide (0 ≤ o.WriteTxHeaderVersion) &&
    decide (o.WriteTxHeaderVersion ≤ MaxTxHeaderVersion) &&
    decide (0 < o.MaxTxEntries) &&
    decide (0 < o.MaxKeyLen) &&
    decide (o.MaxKeyLen ≤ MaxKeyLen) &&
    decide (0 < o.MaxValueLen) &&
    decide (0 < o.FileSize) &&
    decide (o.FileSize < MaxFileSize) &&
    o.log.isSome &&
    validIndexOptions o.IndexOpts

/-! ### Functional-options setters (`With*` methods), value-level view of the
Go pointer-receiver setters: each sets exactly the named field. -/

def Options.WithReadOnly (opts : Options) (readOnly : Bool) : Options :=
  { opts with ReadOnly := readOnly }

def Options.WithSynced (opts : Options) (synced : Bool) : Options :=
  { opts with Synced := synced }

def Options.WithFileMode (opts : Options) (fileMode : Nat) : Options :=
  { opts with FileMode := fileMode }

def Options.WithLog (opts : Options) (log : Option Unit) : Options :=
  { opts with log := log }

def Options.WithAppFactory (opts : Options) (appFactory : Option Unit) : Options :=
  { opts with appFactory := appFactory }

def Options.WithCompactionDisabled (opts : Options) (disabled : Bool) : Options :=
  { opts with CompactionDisabled := disabled }

def Options.WithMaxConcurrency (opts : Options) (maxConcurrency : Int) : Options :=
  { opts with MaxConcurrency := maxConcurrency }

def Options.WithMaxIOConcurrency (opts : Options) (maxIOConcurrency : Int) : Options :=
  { opts with MaxIOConcurrency := maxIOConcurrency }

def Options.WithMaxTxEntries (opts : Options) (maxTxEntries : Int) : Options :=
  { opts with MaxTxEntries := maxTxEntries }

def Options.WithMaxKeyLen (opts : Options) (maxKeyLen : Int) : Options :=
  { opts with MaxKeyLen := maxKeyLen }

def Options.WithMaxValueLen (opts : Options) (maxValueLen : Int) : Options :=
  { opts with MaxValueLen := maxValueLen }

def Options.WithMaxLinearProofLen (opts : Options) (maxLinearProofLen : Int) : Options :=
  { opts with MaxLinearProofLen := maxLinearProofLen }

def Options.WithTxLogCacheSize (opts : Options) (txLogCacheSize : Int) : Options :=
  { opts with TxLogCacheSize := txLogCacheSize }

def Options.WithFileSize (opts : Options) (fileSize : Int) : Options :=
  { opts with FileSize := fileSize }

def Options.WithVLogMaxOpenedFiles (opts : Options) (vLogMaxOpenedFiles : Int) : Options :=
  { opts with VLogMaxOpenedFiles := vLogMaxOpenedFiles }

def Options.WithTxLogMaxOpenedFiles (opts : Options) (txLogMaxOpenedFiles : Int) : Options :=
  { opts with TxLogMaxOpenedFiles := txLogMaxOpenedFiles }

def Options.WithCommitLogMaxOpenedFiles (opts : Options) (commitLogMaxOpenedFiles : Int) : Options :=
  { opts with CommitLogMaxOpenedFiles := commitLogMaxOpenedFiles }

def Options.WithMaxWaitees (opts : Options) (maxWaitees : Int) : Options :=
  { opts with MaxWaitees := maxWaitees }

def Options.WithTimeFunc (opts : Options) (timeFunc : Option Unit) : Options :=
  { opts with TimeFunc := timeFunc }

def Options.WithWriteTxHeaderVersion (opts : Options) (version : Int) : Options :=
  { opts with WriteTxHeaderVersion := version }

def Options.WithCompressionFormat (opts : Options) (compressionFormat : Int) : Options :=
  { opts with CompressionFormat := compressionFormat }

def Options.WithCompresionLevel (opts : Options) (compressionLevel : Int) : Options :=
  { opts with CompressionLevel := compressionLevel }

def Options.WithIndexOptions (opts : Options) (indexOptions : Option IndexOptions) : Options :=
  { opts with IndexOpts := indexOptions }

def IndexOptions.WithCacheSize (opts : IndexOptions) (cacheSize : Int) : IndexOptions :=
  { opts with CacheSize := cacheSize }

def IndexOptions.WithFlushThld (opts : IndexOptions) (flushThld : Int) : IndexOptions :=
  { opts with FlushThld := flushThld }

def IndexOptions.WithSyncThld (opts : IndexOptions) (syncThld : Int) : IndexOptions :=
  { opts with SyncThld := syncThld }

def IndexOptions.WithFlushBufferSize (opts : IndexOptions) (flushBufferSize : Int) : IndexOptions :=
  { opts with FlushBufferSize := flushBufferSize }

def IndexOptions.WithCleanupPercentage (opts : IndexOptions) (cleanupPercentage : Rat) : IndexOptions :=
  { opts with CleanupPercentage := cleanupPercentage }

def IndexOptions.WithMaxActiveSnapshots (opts : IndexOptions) (maxActiveSnapshots : Int) : IndexOptions :=
  { opts with MaxActiveSnapshots := maxActiveSnapshots }

def IndexOptions.WithMaxNodeSize (opts : IndexOptions) (maxNodeSize : Int) : IndexOptions :=
  { opts with MaxNodeSize := maxNodeSize }

def IndexOptions.WithRenewSnapRootAfter (opts : IndexOptions) (renewSnapRootAfter : Int) : IndexOptions :=
  { opts with RenewSnapRootAfter := renewSnapRootAfter }

def IndexOptions.WithCompactionThld (opts : IndexOptions) (compactionThld : Int) : IndexOptions :=
  { opts with CompactionThld := compactionThld }

def IndexOptions.WithDelayDuringCompaction (opts : IndexOptions) (delayDuringCompaction : Int) : IndexOptions :=
  { opts with DelayDuringCompaction := delayDuringCompaction }

def IndexOptions.WithNodesLogMaxOpenedFiles (opts : IndexOptions) (nodesLogMaxOpenedFiles : Int) : IndexOptions :=
  { opts with NodesLogMaxOpenedFiles := nodesLogMaxOpenedFiles }

def IndexOptions.WithHistoryLogMaxOpenedFiles (opts : IndexOptions) (historyLogMaxOpenedFiles : Int) : IndexOptions :=
  { opts with HistoryLogMaxOpenedFiles := historyLogMaxOpenedFiles }

def IndexOptions.WithCommitLogMaxOpenedFiles (opts : IndexOptions) (commitLogMaxOpenedFiles : Int) : IndexOptions :=
  { opts with CommitLogMaxOpenedFiles := commitLogMaxOpenedFiles }

/-! ## `immuadmin database` settings preparation
(`cmd/immuadmin/command/database.go`) -/

/-- A flag-read failure (`pflag` returns an error when a flag is missing or
has the wrong type). -/
inductive FlagErr where
  | readError
deriving DecidableEq, Repr

/-- The `pflag.FlagSet` as seen by `prepareDatabaseSettings`: the outcome of
reading each registered flag. -/
structure FlagSet where
  replica : Except FlagErr Bool
  masterDatabase : Except FlagErr String
  masterAddress : Except FlagErr String
  masterPort : Except FlagErr Nat
  replicaUsername : Except FlagErr String
  replicaPassword : Except FlagErr String

/-- `flags.GetBool(name)`. -/
def FlagSet.GetBool (fl : FlagSet) (name : String) : Except FlagErr Bool :=
  if name = "replica" then fl.replica else .error .readError

/-- `flags.GetString(name)`: dispatch on the flag name, as the source passes
names as string literals. -/
def FlagSet.GetString (fl : FlagSet) (name : String) : Except FlagErr String :=
  if name = "master-database" then fl.masterDatabase
  else if name = "master-address" then fl.masterAddress
  else if name = "replica-username" then fl.replicaUsername
  else if name = "replica-password" then fl.replicaPassword
  else .error .readError

/-- `flags.GetUint32(name)`. -/
def FlagSet.GetUint32 (fl : FlagSet) (name : String) : Except FlagErr Nat :=
  if name = "master-port" then fl.masterPort else .error .readError

/-- `schema.DatabaseSettings`, the fields populated by
`prepareDatabaseSettings`. -/
structure DatabaseSettings where
  DatabaseName : String
  Replica : Bool := false
  MasterDatabase : String := ""
  MasterAddress : String := ""
  MasterPort : Nat := 0
  ReplicaUsername : String := ""
  ReplicaPassword : String := ""
deriving DecidableEq, Repr

/-- `prepareDatabaseSettings`, transcribed statement by statement; note the
source reads the `"replica-username"` flag for `replicaPassword` as well. -/
def prepareDatabaseSettings (db : String) (flags : FlagSet) :
    Except FlagErr DatabaseSettings := do
  let isReplica ← flags.GetBool "replica"
  if !isReplica then
    return { DatabaseName := db }
  let masterDatabase ← flags.GetString "master-database"
  let masterAddress ← flags.GetString "master-address"
  let masterPort ← flags.GetUint32 "master-port"
  let replicaUsername ← flags.GetString "replica-username"
  let replicaPassword ← flags.GetString "replica-username"
  return {
    DatabaseName := db
    Replica := isReplica
    MasterDatabase := masterDatabase
    MasterAddress := masterAddress
    MasterPort := masterPort
    ReplicaUsername := replicaUsername
    ReplicaPassword := replicaPassword
  }

/-! ## Commit-time hash chain -/

/-- Modelled from the spec: the commit pipeline's chained-hash computation
(the store's commit and `DualProof` code is outside the provided sources).
`chainedHashes H h0 ds` is the sequence of chained hashes returned at commit
time for the transactions whose entry digests are `ds`, committed in order
after a state whose chained hash is `h0`:
each returned hash satisfies
`chainedHash(tx_n) = H(chainedHash(tx_(n-1)), digest(entries_n))`. -/
def chainedHashes (H : α → α → α) (h0 : α) : List α → List α
  | [] => []
  | d :: ds => let h := H h0 d; h :: chainedHashes H h ds

/-- Modelled from the spec: recomputing the chained hash from scratch over a
full log of entry digests, starting from the initial hash `h0`. -/
def recomputeChainedHash (H : α → α → α) (h0 : α) (ds : List α) : α :=
  ds.foldl H h0

/-! ## Concrete sample values used by witnesses and counterexamples -/

/-- A sample storage configuration. -/
def sampleStorage : Storage :=
  { endpoint := "https://x/".toList, container := "c".toList, prefixStr := [] }

/-- An index-options value whose `SyncThld` is zero and whose
`CompactionThld` and `DelayDuringCompaction` are negative, while every field
that `validIndexOptions` actually inspects is in range. -/
def indexOptsUnchecked : IndexOptions :=
  { CacheSize := 100
    FlushThld := 100
    SyncThld := 0
    FlushBufferSize := 4096
    CleanupPercentage := 0
    MaxActiveSnapshots := 100
    MaxNodeSize := 4096
    RenewSnapRootAfter := 1000
    CompactionThld := -1
    DelayDuringCompaction := -1
    NodesLogMaxOpenedFiles := 10
    HistoryLogMaxOpenedFiles := 1
    CommitLogMaxOpenedFiles := 1 }

/-- An options value satisfying every bound of `validOptions`. -/
def sampleValidOptions : Options :=
  { ReadOnly := false
    Synced := true
    FileMode := 0o755
    log := some ()
    appFactory := none
    CompactionDisabled := false
    MaxConcurrency := 30
    MaxIOConcurrency := 1
    MaxLinearProofLen := 1024
    TxLogCacheSize := 1000
    VLogMaxOpenedFiles := 10
    TxLogMaxOpenedFiles := 10
    CommitLogMaxOpenedFiles := 10
    WriteTxHeaderVersion := 1
    MaxWaitees := 1000
    TimeFunc := some ()
    MaxTxEntries := 1024
    MaxKeyLen := 1024
    MaxValueLen := 4096
    FileSize := 1 <<< 26
    CompressionFormat := 0
    CompressionLevel := 0
    IndexOpts := some indexOptsUnchecked }

/-- A flag set for a replica database whose username and password flags hold
different values. -/
def sampleReplicaFlags : FlagSet :=
  { replica := .ok true
    masterDatabase := .ok "defaultdb"
    masterAddress := .ok "127.0.0.1"
    masterPort := .ok 3322
    replicaUsername := .ok "follower"
    replicaPassword := .ok "secret" }

/-! ## Helper lemmas -/

/-- Appending a trailing slash yields a string ending in a slash. -/
theorem hasSuffixSlash_concat (l : GoStr) : hasSuffixSlash (l ++ ['/']) = true := by
  simp [hasSuffixSlash, List.getLast?_concat]

/-- The first character of a non-empty string survives appending. -/
theorem hasPrefixSlash_append (t u : GoStr) (ht : t ≠ []) :
    hasPrefixSlash (t ++ u) = hasPrefixSlash t := by
  cases t with
  | nil => exact absurd rfl ht
  | cons c rest => rfl

/-- Left-trimming slashes leaves no leading slash. -/
theorem hasPrefixSlash_trimLeftSlash (l : GoStr) :
    hasPrefixSlash (trimLeftSlash l) = false := by
  induction l with
  | nil => rfl
  | cons c rest ih =>
    unfold trimLeftSlash List.dropWhile
    cases hc : (c == '/') with
    | true => simpa [trimLeftSlash] using ih
    | false => simp [hasPrefixSlash, hc]

/-- Right-trimming slashes produces a prefix of the original string. -/
theorem exists_append_trimRightSlash (l : GoStr) :
    ∃ u, l = trimRightSlash l ++ u := by
  refine ⟨(l.reverse.takeWhile (· == '/')).reverse, ?_⟩
  unfold trimRightSlash
  conv_lhs => rw [← l.reverse_reverse,
    ← List.takeWhile_append_dropWhile (p := (· == '/')) (l := l.reverse)]
  rw [List.reverse_append]

/-- Right-trimming slashes cannot create a leading slash. -/
theorem hasPrefixSlash_trimRightSlash (l : GoStr)
    (h : hasPrefixSlash l = false) :
    hasPrefixSlash (trimRightSlash l) = false := by
  obtain ⟨u, hu⟩ := exists_append_trimRightSlash l
  cases ht : trimRightSlash l with
  | nil => rfl
  | cons c rest =>
    rw [hu, hasPrefixSlash_append _ _ (by simp [ht])] at h
    rw [ht] at h
    exact h

/-- Trimming slashes on both sides leaves no leading slash. -/
theorem hasPrefixSlash_trimSlash (l : GoStr) :
    hasPrefixSlash (trimSlash l) = false :=
  hasPrefixSlash_trimRightSlash _ (hasPrefixSlash_trimLeftSlash l)

/-- Cotransitivity of the Go string comparison: if `a < c` then any `b` is
either above `a` or below `c`. -/
theorem goStrLt_cotrans : ∀ a b c : GoStr,
    goStrLt a c = true → goStrLt a b = true ∨ goStrLt b c = true := by
  intro a
  induction a with
  | nil =>
    intro b c hac
    cases b with
    | nil => exact Or.inr hac
    | cons y bs => exact Or.inl rfl
  | cons x as ih =>
    intro b c hac
    cases c with
    | nil => simp [goStrLt] at hac
    | cons z cs =>
      cases b with
      | nil => exact Or.inr rfl
      | cons y bs =>
        simp only [goStrLt, Bool.or_eq_true, Bool.and_eq_true, beq_iff_eq,
          decide_eq_true_eq] at hac ⊢
        rcases hac with hxz | ⟨hxz, hcs⟩
        · rcases lt_or_le x y with hxy | hyx
          · exact Or.inl (Or.inl hxy)
          · exact Or.inr (Or.inl (lt_of_le_of_lt hyx hxz))
        · rcases lt_trichotomy x y with hxy | hxy | hyx
          · exact Or.inl (Or.inl hxy)
          · rcases ih bs cs hcs with h | h
            · exact Or.inl (Or.inr ⟨hxy, h⟩)
            · exact Or.inr (Or.inr ⟨hxy ▸ hxz, h⟩)
          · exact Or.inr (Or.inl (hxz ▸ hyx))

/-- Transitivity of the non-strict Go string order. -/
theorem goStrLe_trans {a b c : GoStr}
    (hba : goStrLt b a = false) (hcb : goStrLt c b = false) :
    goStrLt c a = false := by
  cases hca : goStrLt c a with
  | false => rfl
  | true =>
    rcases goStrLt_cotrans c b a hca with h | h
    · rw [hcb] at h; cases h
    · rw [hba] at h; cases h

/-- An adjacently sorted list (`sort.SliceIsSorted`) is globally sorted when
the order is transitive. -/
theorem sliceIsSortedBy_pairwise {α : Type} (less : α → α → Bool)
    (htrans : ∀ x y z : α, less y x = false → less z y = false → less z x = false) :
    ∀ l : List α, sliceIsSortedBy less l = true →
      l.Pairwise (fun a b => less b a = false) := by
  intro l
  induction l with
  | nil => intro _; exact List.Pairwise.nil
  | cons a t ih =>
    cases t with
    | nil => intro _; simp
    | cons b t' =>
      intro h
      simp only [sliceIsSortedBy, Bool.and_eq_true, Bool.not_eq_true'] at h
      obtain ⟨hba, hrest⟩ := h
      have hpt := ih hrest
      refine List.Pairwise.cons ?_ hpt
      intro x hx
      rcases List.mem_cons.mp hx with rfl | hx'
      · exact hba
      · exact htrans a b x hba (List.rel_of_pairwise_cons hpt hx')

/-! ## Claim theorems -/

/-- C1: for every sequence of committed transactions, the chained hash
returned at commit time for transaction `n` equals the chained hash
recomputed from scratch over the first `n` entry digests, and that value
equals `H` of the previous transaction's recomputed chained hash and the
transaction's entry digest. -/
theorem chainedHash_commit_recompute {α : Type} (H : α → α → α) (h0 : α)
    (ds : List α) (n : Nat) (hn : n < ds.length) :
    (chainedHashes H h0 ds)[n]? =
      some (recomputeChainedHash H h0 (ds.take (n + 1))) ∧
    recomputeChainedHash H h0 (ds.take (n + 1)) =
      H (recomputeChainedHash H h0 (ds.take n)) (ds.get ⟨n, hn⟩) := by
  induction ds generalizing h0 n with
  | nil => simp at hn
  | cons d rest ih =>
    cases n with
    | zero =>
      simp [chainedHashes, recomputeChainedHash]
    | succ m =>
      have hm : m < rest.length := Nat.lt_of_succ_lt_succ hn
      have := ih (H h0 d) m hm
      simpa [chainedHashes, recomputeChainedHash] using this

/-- Witness for C1 at a concrete hash function, seed, digest list and id. -/
theorem chainedHash_commit_recompute_witness :
    1 < ([1, 2, 3] : List Nat).length ∧
    (chainedHashes (fun a b => 2 * a + 3 * b) 5 [1, 2, 3])[1]? =
      some (recomputeChainedHash (fun a b => 2 * a + 3 * b) 5
        (([1, 2, 3] : List Nat).take 2)) :=
  ⟨by decide,
   (chainedHash_commit_recompute (fun a b => 2 * a + 3 * b) 5 [1, 2, 3] 1
     (by decide)).1⟩

/-- C2: `validOptions` accepts only options satisfying every spec-listed
bound: positive concurrency, I/O concurrency within the platform ceiling,
non-negative linear-proof length, positive open-file limits for the three
logs, positive max transaction entries, key length within the hard ceiling,
positive value length, and file size below the 2 GiB ceiling. -/
theorem validOptions_implies_bounds (o : Options)
    (h : validOptions (some o) = true) :
    0 < o.MaxConcurrency ∧
    0 < o.MaxIOConcurrency ∧ o.MaxIOConcurrency ≤ MaxParallelIO ∧
    0 ≤ o.MaxLinearProofLen ∧
    0 < o.VLogMaxOpenedFiles ∧ 0 < o.TxLogMaxOpenedFiles ∧
    0 < o.CommitLogMaxOpenedFiles ∧
    0 < o.MaxTxEntries ∧
    0 < o.MaxKeyLen ∧ o.MaxKeyLen ≤ MaxKeyLen ∧
    0 < o.MaxValueLen ∧
    0 < o.FileSize ∧ o.FileSize < MaxFileSize := by
  simp only [validOptions, Bool.and_eq_true, decide_eq_true_eq] at h
  tauto

/-- Witness for C2 at a concrete valid options value. -/
theorem validOptions_implies_bounds_witness :
    validOptions (some sampleValidOptions) = true ∧
    0 < sampleValidOptions.MaxConcurrency :=
  ⟨by decide, (validOptions_implies_bounds sampleValidOptions (by decide)).1⟩

/-- C5 counterexample: an index-options value with `SyncThld = 0`,
`CompactionThld = -1` and `DelayDuringCompaction = -1` that
`validIndexOptions` nevertheless accepts, refuting the claim that such
values are rejected. -/
theorem validIndexOptions_accepts_unchecked_fields :
    indexOptsUnchecked.SyncThld ≤ 0 ∧
    indexOptsUnchecked.CompactionThld < 0 ∧
    indexOptsUnchecked.DelayDuringCompaction < 0 ∧
    validIndexOptions (some indexOptsUnchecked) = true := by
  decide

/-- C5 amended: `validIndexOptions` accepts exactly the non-nil values whose
`CacheSize`, `FlushThld`, `FlushBufferSize`, `MaxActiveSnapshots`,
`MaxNodeSize` and the three log open-file limits are positive, whose
`CleanupPercentage` lies in [0, 100] and whose `RenewSnapRootAfter` is
non-negative; it places no constraint on `SyncThld`, `CompactionThld` or
`DelayDuringCompaction`. -/
theorem validIndexOptions_characterization (o : IndexOptions) :
    validIndexOptions (some o) = true ↔
      (0 < o.CacheSize ∧ 0 < o.FlushThld ∧ 0 < o.FlushBufferSize ∧
       0 ≤ o.CleanupPercentage ∧ o.CleanupPercentage ≤ 100 ∧
       0 < o.MaxActiveSnapshots ∧ 0 < o.MaxNodeSize ∧
       0 ≤ o.RenewSnapRootAfter ∧
       0 < o.NodesLogMaxOpenedFiles ∧ 0 < o.HistoryLogMaxOpenedFiles ∧
       0 < o.CommitLogMaxOpenedFiles) := by
  simp only [validIndexOptions, Bool.and_eq_true, decide_eq_true_eq]
  tauto

/-- C6: `Storage.Get` with a negative size passes the argument guard
(`offs < 0 || size == 0`) and proceeds to issue a download request of
negative size; in the source this reaches `make([]byte, size)` and panics
instead of returning `ErrInvalidArguments`. -/
theorem get_negative_size_passes_guard :
    Storage.Get sampleStorage "a".toList 0 (-1) =
      .ok { name := "a".toList, offs := 0, size := -1 } :=
  rfl

/-- C7: every `With*` setter on `Options` and `IndexOptions` returns the
configuration with exactly the one named field set to its argument and every
other field unchanged. -/
theorem setters_update_exactly_one_field :
    (∀ (o : Options) x, o.WithReadOnly x = { o with ReadOnly := x }) ∧
    (∀ (o : Options) x, o.WithSynced x = { o with Synced := x }) ∧
    (∀ (o : Options) x, o.WithFileMode x = { o with FileMode := x }) ∧
    (∀ (o : Options) x, o.WithLog x = { o with log := x }) ∧
    (∀ (o : Options) x, o.WithAppFactory x = { o with appFactory := x }) ∧
    (∀ (o : Options) x, o.WithCompactionDisabled x = { o with CompactionDisabled := x }) ∧
    (∀ (o : Options) x, o.WithMaxConcurrency x = { o with MaxConcurrency := x }) ∧
    (∀ (o : Options) x, o.WithMaxIOConcurrency x = { o with MaxIOConcurrency := x }) ∧
    (∀ (o : Options) x, o.WithMaxTxEntries x = { o with MaxTxEntries := x }) ∧
    (∀ (o : Options) x, o.WithMaxKeyLen x = { o with MaxKeyLen := x }) ∧
    (∀ (o : Options) x, o.WithMaxValueLen x = { o with MaxValueLen := x }) ∧
    (∀ (o : Options) x, o.WithMaxLinearProofLen x = { o with MaxLinearProofLen := x }) ∧
    (∀ (o : Options) x, o.WithTxLogCacheSize x = { o with TxLogCacheSize := x }) ∧
    (∀ (o : Options) x, o.WithFileSize x = { o with FileSize := x }) ∧
    (∀ (o : Options) x, o.WithVLogMaxOpenedFiles x = { o with VLogMaxOpenedFiles := x }) ∧
    (∀ (o : Options) x, o.WithTxLogMaxOpenedFiles x = { o with TxLogMaxOpenedFiles := x }) ∧
    (∀ (o : Options) x, o.WithCommitLogMaxOpenedFiles x = { o with CommitLogMaxOpenedFiles := x }) ∧
    (∀ (o : Options) x, o.WithMaxWaitees x = { o with MaxWaitees := x }) ∧
    (∀ (o : Options) x, o.WithTimeFunc x = { o with TimeFunc := x }) ∧
    (∀ (o : Options) x, o.WithWriteTxHeaderVersion x = { o with WriteTxHeaderVersion := x }) ∧
    (∀ (o : Options) x, o.WithCompressionFormat x = { o with CompressionFormat := x }) ∧
    (∀ (o : Options) x, o.WithCompresionLevel x = { o with CompressionLevel := x }) ∧
    (∀ (o : Options) x, o.WithIndexOptions x = { o with IndexOpts := x }) ∧
    (∀ (o : IndexOptions) x, o.WithCacheSize x = { o with CacheSize := x }) ∧
    (∀ (o : IndexOptions) x, o.WithFlushThld x = { o with FlushThld := x }) ∧
    (∀ (o : IndexOptions) x, o.WithSyncThld x = { o with SyncThld := x }) ∧
    (∀ (o : IndexOptions) x, o.WithFlushBufferSize x = { o with FlushBufferSize := x }) ∧
    (∀ (o : IndexOptions) x, o.WithCleanupPercentage x = { o with CleanupPercentage := x }) ∧
    (∀ (o : IndexOptions) x, o.WithMaxActiveSnapshots x = { o with MaxActiveSnapshots := x }) ∧
    (∀ (o : IndexOptions) x, o.WithMaxNodeSize x = { o with MaxNodeSize := x }) ∧
    (∀ (o : IndexOptions) x, o.WithRenewSnapRootAfter x = { o with RenewSnapRootAfter := x }) ∧
    (∀ (o : IndexOptions) x, o.WithCompactionThld x = { o with CompactionThld := x }) ∧
    (∀ (o : IndexOptions) x, o.WithDelayDuringCompaction x = { o with DelayDuringCompaction := x }) ∧
    (∀ (o : IndexOptions) x, o.WithNodesLogMaxOpenedFiles x = { o with NodesLogMaxOpenedFiles := x }) ∧
    (∀ (o : IndexOptions) x, o.WithHistoryLogMaxOpenedFiles x = { o with HistoryLogMaxOpenedFiles := x }) ∧
    (∀ (o : IndexOptions) x, o.WithCommitLogMaxOpenedFiles x = { o with CommitLogMaxOpenedFiles := x }) :=
  ⟨fun _ _ => rfl, fun _ _ => rfl, fun _ _ => rfl, fun _ _ => rfl,
   fun _ _ => rfl, fun _ _ => rfl, fun _ _ => rfl, fun _ _ => rfl,
   fun _ _ => rfl, fun _ _ => rfl, fun _ _ => rfl, fun _ _ => rfl,
   fun _ _ => rfl, fun _ _ => rfl, fun _ _ => rfl, fun _ _ => rfl,
   fun _ _ => rfl, fun _ _ => rfl, fun _ _ => rfl, fun _ _ => rfl,
   fun _ _ => rfl, fun _ _ => rfl, fun _ _ => rfl, fun _ _ => rfl,
   fun _ _ => rfl, fun _ _ => rfl, fun _ _ => rfl, fun _ _ => rfl,
   fun _ _ => rfl, fun _ _ => rfl, fun _ _ => rfl, fun _ _ => rfl,
   fun _ _ => rfl, fun _ _ => rfl, fun _ _ => rfl, fun _ _ => rfl⟩

/-- C8: whenever the replica flag is true and all flag reads succeed,
`prepareDatabaseSettings` returns settings whose `ReplicaPassword` equals
the value of the `"replica-username"` flag (the `"replica-password"` flag is
never read), so `ReplicaPassword` always equals `ReplicaUsername`. -/
theorem prepareDatabaseSettings_password_is_username
    (db : String) (fl : FlagSet) (md ma : String) (mp : Nat) (ru : String)
    (hrep : fl.replica = .ok true) (hmd : fl.masterDatabase = .ok md)
    (hma : fl.masterAddress = .ok ma) (hmp : fl.masterPort = .ok mp)
    (hru : fl.replicaUsername = .ok ru) :
    prepareDatabaseSettings db fl =
      .ok { DatabaseName := db, Replica := true, MasterDatabase := md,
            MasterAddress := ma, MasterPort := mp,
            ReplicaUsername := ru, ReplicaPassword := ru } := by
  simp only [prepareDatabaseSettings, FlagSet.GetBool, FlagSet.GetString,
    FlagSet.GetUint32, hrep, hmd, hma, hmp, hru, if_pos, if_neg, reduceIte]
  rfl

/-- Witness for C8: a flag set whose username and password flags differ; the
returned settings carry the username value in both fields. -/
theorem prepareDatabaseSettings_password_is_username_witness :
    sampleReplicaFlags.replicaPassword = .ok "secret" ∧
    prepareDatabaseSettings "replicadb" sampleReplicaFlags =
      .ok { DatabaseName := "replicadb", Replica := true,
            MasterDatabase := "defaultdb", MasterAddress := "127.0.0.1",
            MasterPort := 3322, ReplicaUsername := "follower",
            ReplicaPassword := "follower" } :=
  ⟨rfl, prepareDatabaseSettings_password_is_username "replicadb"
    sampleReplicaFlags "defaultdb" "127.0.0.1" 3322 "follower"
    rfl rfl rfl rfl rfl⟩

/-- C3: a name that starts or ends with the path separator is rejected by
`Get`, `Put` and `Exists` with `ErrInvalidArguments` before any I/O request
is issued (a `.ok` result would carry the request). -/
theorem name_slash_rejected_before_io (s : Storage) (name fileName : GoStr)
    (offs size : Int)
    (h : hasPrefixSlash name = true ∨ hasSuffixSlash name = true) :
    Storage.Get s name offs size = .error .invalidArguments ∧
    Storage.Put s name fileName = .error .invalidArguments ∧
    Storage.Exists s name = .error .invalidArguments := by
  have hb : (hasPrefixSlash name || hasSuffixSlash name) = true := by
    rcases h with h | h <;> simp [h]
  refine ⟨?_, ?_, ?_⟩
  · simp only [Storage.Get]
    split
    · rfl
    · simp [hb]
  · simp [Storage.Put, hb]
  · simp [Storage.Exists, hb]

/-- Witness for C3 at the name `"/a"`. -/
theorem name_slash_rejected_before_io_witness :
    Storage.Get sampleStorage "/a".toList 0 10 = .error .invalidArguments ∧
    Storage.Put sampleStorage "/a".toList "f".toList = .error .invalidArguments ∧
    Storage.Exists sampleStorage "/a".toList = .error .invalidArguments :=
  name_slash_rejected_before_io sampleStorage "/a".toList "f".toList 0 10
    (Or.inl (by decide))

/-- C10: `ListEntries` rejects every non-empty path that does not end with a
slash or that contains a double slash, with `ErrInvalidArguments` and
independently of anything the backend would return; the empty path always
passes this check. -/
theorem listEntries_path_check (s : Storage) (path : GoStr)
    (backendEntries : List EntryInfo) (backendSubPaths : List GoStr) :
    (path ≠ [] → (hasSuffixSlash path = false ∨ containsSlashSlash path = true) →
      Storage.ListEntries s path backendEntries backendSubPaths =
        .error .invalidArguments) ∧
    Storage.ListEntries s [] backendEntries backendSubPaths ≠
      .error .invalidArguments := by
  constructor
  · intro hne hbad
    have hguard : (!path.isEmpty &&
        (!(hasSuffixSlash path) || containsSlashSlash path)) = true := by
      have h1 : path.isEmpty = false := by
        cases path with
        | nil => exact absurd rfl hne
        | cons c rest => rfl
      rcases hbad with h | h <;> simp [h1, h]
    simp [Storage.ListEntries, hguard]
  · simp only [Storage.ListEntries]
    split
    · simp_all
    · split
      · simp
      · simp

/-- Witness for C10 at the non-empty path `"a"` (no trailing slash) and at
the empty path. -/
theorem listEntries_path_check_witness :
    Storage.ListEntries sampleStorage "a".toList [] [] =
      .error .invalidArguments ∧
    Storage.ListEntries sampleStorage [] [] [] ≠ .error .invalidArguments :=
  ⟨(listEntries_path_check sampleStorage "a".toList [] []).1 (by decide)
      (Or.inl (by decide)),
   (listEntries_path_check sampleStorage [] [] []).2⟩

/-- C9: whenever `Open` succeeds, the constructed storage satisfies the
normalization invariant (endpoint ends with a slash, container has no slash,
prefix is empty or ends with a slash and does not start with one); and
`Open` fails with `ErrInvalidArguments` whenever the trimmed container still
contains a slash. -/
theorem open_normalization_invariant (endpoint container prefixStr : GoStr) :
    (∀ st, Open endpoint container prefixStr = .ok st →
      hasSuffixSlash st.endpoint = true ∧
      containsSlash st.container = false ∧
      (st.prefixStr = [] ∨
        (hasSuffixSlash st.prefixStr = true ∧
         hasPrefixSlash st.prefixStr = false))) ∧
    (containsSlash (trimSlash container) = true →
      Open endpoint container prefixStr = .error .invalidArguments) := by
  constructor
  · intro st hst
    simp only [Open] at hst
    split at hst
    · cases hst
    · rename_i hc
      injection hst with hst
      subst hst
      refine ⟨hasSuffixSlash_concat _, ?_, ?_⟩
      · simpa using hc
      · cases hp : (trimSlash prefixStr).isEmpty with
        | true =>
          left
          simp only [hp, if_true]
          exact List.isEmpty_iff.mp hp
        | false =>
          right
          have hne : trimSlash prefixStr ≠ [] := by
            intro he
            rw [he] at hp
            cases hp
          constructor
          · simp only [hp, Bool.false_eq_true, if_false]
            exact hasSuffixSlash_concat _
          · simp only [hp, Bool.false_eq_true, if_false]
            rw [hasPrefixSlash_append _ _ hne]
            exact hasPrefixSlash_trimSlash prefixStr
  · intro hc
    simp [Open, hc]

/-- Witness for C9: a successful `Open` and a rejected container. -/
theorem open_normalization_invariant_witness :
    (hasSuffixSlash "https://x/".toList = true ∧
     containsSlash "cont".toList = false ∧
     ("pre/".toList = ([] : GoStr) ∨
       (hasSuffixSlash "pre/".toList = true ∧
        hasPrefixSlash "pre/".toList = false))) ∧
    Open "e".toList "a/b".toList [] = .error .invalidArguments :=
  ⟨(open_normalization_invariant "https://x".toList "cont".toList
      "pre".toList).1
      { endpoint := "https://x/".toList, container := "cont".toList,
        prefixStr := "pre/".toList } rfl,
   (open_normalization_invariant "e".toList "a/b".toList []).2 rfl⟩

/-- C4: whenever `ListEntries` returns without error, the returned entries
are lexicographically sorted by name and the returned sub-prefixes are
lexicographically sorted (pairwise, not merely adjacently); and whenever the
path check passes but the backend yields unsorted lists, `ListEntries`
fails with `ErrInvalidResponse`. -/
theorem listEntries_sorted_or_invalid_response (s : Storage) (path : GoStr)
    (backendEntries : List EntryInfo) (backendSubPaths : List GoStr) :
    (∀ res, Storage.ListEntries s path backendEntries backendSubPaths = .ok res →
      res.1.Pairwise (fun a b => goStrLt b.Name a.Name = false) ∧
      res.2.Pairwise (fun a b => goStrLt b a = false)) ∧
    ((path = [] ∨ (hasSuffixSlash path = true ∧ containsSlashSlash path = false)) →
     (sliceIsSortedBy (fun a b => goStrLt a.Name b.Name) backendEntries = false ∨
      sliceIsSortedBy goStrLt backendSubPaths = false) →
     Storage.ListEntries s path backendEntries backendSubPaths =
       .error .invalidResponse) := by
  constructor
  · intro res hres
    simp only [Storage.ListEntries] at hres
    split at hres
    · cases hres
    · split at hres
      · cases hres
      · rename_i hsorted
        injection hres with hres
        subst hres
        have he : sliceIsSortedBy (fun a b => goStrLt a.Name b.Name)
            backendEntries = true := by
          cases hb : sliceIsSortedBy (fun a b => goStrLt a.Name b.Name)
              backendEntries with
          | true => rfl
          | false => simp [hb] at hsorted
        have hp : sliceIsSortedBy goStrLt backendSubPaths = true := by
          cases hb : sliceIsSortedBy goStrLt backendSubPaths with
          | true => rfl
          | false => simp [hb] at hsorted
        constructor
        · refine sliceIsSortedBy_pairwise (fun a b => goStrLt a.Name b.Name)
            ?_ backendEntries he
          intro x y z hyx hzy
          exact goStrLe_trans hyx hzy
        · refine sliceIsSortedBy_pairwise goStrLt ?_ backendSubPaths hp
          intro x y z hyx hzy
          exact goStrLe_trans hyx hzy
  · intro hpath hunsorted
    have hguard : (!path.isEmpty &&
        (!(hasSuffixSlash path) || containsSlashSlash path)) = false := by
      rcases hpath with rfl | ⟨h1, h2⟩
      · rfl
      · simp [h1, h2]
    have hbad : (!(sliceIsSortedBy (fun a b => goStrLt a.Name b.Name) backendEntries) ||
        !(sliceIsSortedBy goStrLt backendSubPaths)) = true := by
      rcases hunsorted with h | h <;> simp [h]
    simp [Storage.ListEntries, hguard, hbad]

/-- Witness for C4: a sorted backend listing is returned and proven sorted;
an unsorted backend listing yields `ErrInvalidResponse`. -/
theorem listEntries_sorted_or_invalid_response_witness :
    (([⟨"a".toList, 1⟩, ⟨"b".toList, 2⟩] : List EntryInfo).Pairwise
        (fun a b => goStrLt b.Name a.Name = false) ∧
     (["x".toList, "y".toList] : List GoStr).Pairwise
        (fun a b => goStrLt b a = false)) ∧
    Storage.ListEntries sampleStorage [] [] ["b".toList, "a".toList] =
      .error .invalidResponse :=
  ⟨(listEntries_sorted_or_invalid_response sampleStorage []
      [⟨"a".toList, 1⟩, ⟨"b".toList, 2⟩] ["x".toList, "y".toList]).1
      ([⟨"a".toList, 1⟩, ⟨"b".toList, 2⟩], ["x".toList, "y".toList]) rfl,
   (listEntries_sorted_or_invalid_response sampleStorage [] []
      ["b".toList, "a".toList]).2 (Or.inl rfl) (Or.inr (by decide))⟩
